import Mathlib

/-!
Verification of the Site Automation block edit component
(`SiteAutomationBlockEdit`): a shallow embedding of its three routines
`getPosts`, `updatePost` and `updateInnerBlocks`, together with theorems
about the behaviours documented for them.

Modelling conventions:
* The network is an oracle: the response the GET endpoint would deliver is
  passed to the routine as an explicit argument.
* Each routine returns a record of the observable effects it performs
  (requests issued, the alert, the `replaceInnerBlocks` payload, the value
  returned to the caller) instead of performing them.
* JavaScript `undefined` produced by indexing past the end of an array is
  modelled by `Option`: the child list after the merge has entries of type
  `Option Block`, where `none` stands for a spliced-in `undefined`.
* A JavaScript runtime error (indexing into `undefined` itself) is modelled
  by the `Except.error` branch of the merge routine.
-/

namespace SophiSiteAutomation

/-- One record of the array returned by the `get-posts` endpoint.
Field names follow the source (`item.postLink`, `item.post_title`, ...).
`featuredImage` is the value tested for truthiness in the source; the empty
string models a falsy (absent) image. -/
structure ResponseItem where
  postLink : String
  post_title : String
  post_excerpt : String
  featuredImage : String
  postAuthor : String
  postDate : String
  postDateC : String
deriving DecidableEq, Repr

/-- Attributes of a `sophi/page-list-item` block.  The first nine fields are
the ones `getPosts` passes to `createBlock`; `overrideRule`,
`overridePostID` and `overrideExpiry` are block-type attribute defaults read
by the merge routine (they default to the empty string on a freshly created
block). -/
structure PageListItemAttrs where
  postUpdated : Bool
  postLink : String
  postTitle : String
  postExcept : String
  featuredImage : String
  linkToFeaturedImage : Bool
  postAuthor : String
  postDate : String
  postDateC : String
  overrideRule : String
  overridePostID : String
  overrideExpiry : String
deriving DecidableEq, Repr

/-- A block in the editor: a block name plus its attribute record. -/
structure Block where
  name : String
  attributes : PageListItemAttrs
deriving DecidableEq, Repr

/-- `createBlock(name, attributes)` of the block-editor framework. -/
def createBlock (name : String) (attributes : PageListItemAttrs) : Block :=
  { name := name, attributes := attributes }

/-- The block attributes that configure the component (destructured from
`props.attributes` in the source). -/
structure Config where
  pageName : String
  widgetName : String
  displayPostExcept : Bool
  displayAuthor : Bool
  displayPostDate : Bool
  displayFeaturedImage : Bool
  addLinkToFeaturedImage : Bool
deriving DecidableEq, Repr

def sophiEndpoint : String := "/sophi/v1/"

/-- Query arguments of the GET request issued by `getPosts`. -/
structure GetPostsQueryArgs where
  overridePostID : String
  pageName : String
  widgetName : String
  displayFeaturedImage : Bool
  displayAuthor : Bool
  displayPostDate : Bool
  displayPostExcept : Bool
deriving DecidableEq, Repr

/-- The request `getPosts` hands to `apiFetch`: the endpoint path (the query
arguments are appended to it by `addQueryArgs`) and the HTTP method.  No
request body is supplied in the source. -/
structure GetPostsRequest where
  path : String
  queryArgs : GetPostsQueryArgs
  method : String
deriving DecidableEq, Repr

/-- Observable effects of one `getPosts` call:
* `request`: the GET request issued (`none` when the routine returned before
  fetching);
* `alerted`: whether the "Posts not found in the site!" alert fired;
* `replaceCall`: the payload of the `replaceInnerBlocks` call (`none` when
  that call was not made);
* `returned`: the value the async function returned to its caller (`none`
  models JavaScript `undefined`, `some` the peek-mode item array). -/
structure GetPostsResult where
  request : Option GetPostsRequest
  alerted : Bool
  replaceCall : Option (List Block)
  returned : Option (List Block)
deriving DecidableEq, Repr

/-- The attribute record `getPosts` builds for one response item
(source lines 96-106).  Display fields are filtered by the toggles;
`featuredImage` is additionally gated on the item value being truthy.
The three override fields come from the block-type defaults. -/
def mkPageListItemAttrs (cfg : Config) (item : ResponseItem) : PageListItemAttrs :=
  { postUpdated := false
    postLink := item.postLink
    postTitle := item.post_title
    postExcept := if cfg.displayPostExcept then item.post_excerpt else ""
    featuredImage :=
      if cfg.displayFeaturedImage && (item.featuredImage != "") then item.featuredImage else ""
    linkToFeaturedImage := cfg.addLinkToFeaturedImage
    postAuthor := if cfg.displayAuthor then item.postAuthor else ""
    postDate := if cfg.displayPostDate then item.postDate else ""
    postDateC := if cfg.displayPostDate then item.postDateC else ""
    overrideRule := ""
    overridePostID := ""
    overrideExpiry := "" }

/-- The `createBlock('sophi/page-list-item', {...})` call `getPosts`
performs for one response item (the body of its `data.map` callback). -/
def mkItemBlock (cfg : Config) (item : ResponseItem) : Block :=
  createBlock "sophi/page-list-item" (mkPageListItemAttrs cfg item)

/-- `getPosts(overridePostID)` (source lines 68-125), with the endpoint's
response supplied as the oracle argument `response`.

* Empty `pageName` or `widgetName`: return immediately (no request, no
  alert, no replacement, `undefined` returned).
* Otherwise issue the GET request; a non-empty response is mapped item by
  item through `createBlock`, an empty one fires the alert and constructs
  nothing.
* With a non-empty `overridePostID` the constructed array is returned
  (peek mode); otherwise `replaceInnerBlocks` is called with it and
  `undefined` is returned. -/
def getPosts (cfg : Config) (overridePostID : String)
    (response : List ResponseItem) : GetPostsResult :=
  if cfg.pageName = "" ∨ cfg.widgetName = "" then
    { request := none, alerted := false, replaceCall := none, returned := none }
  else
    let req : GetPostsRequest :=
      { path := sophiEndpoint ++ "get-posts"
        queryArgs :=
          { overridePostID := overridePostID
            pageName := cfg.pageName
            widgetName := cfg.widgetName
            displayFeaturedImage := cfg.displayFeaturedImage
            displayAuthor := cfg.displayAuthor
            displayPostDate := cfg.displayPostDate
            displayPostExcept := cfg.displayPostExcept }
        method := "GET" }
    let updatedInnerBlocks : List Block :=
      if response.length ≠ 0 then response.map (mkItemBlock cfg) else []
    if overridePostID ≠ "" then
      { request := some req
        alerted := response.length == 0
        replaceCall := none
        returned := some updatedInnerBlocks }
    else
      { request := some req
        alerted := response.length == 0
        replaceCall := some updatedInnerBlocks
        returned := none }

/-- Query arguments of the POST request issued by `updatePost`. -/
structure UpdatePostQueryArgs where
  ruleType : String
  overridePostID : String
  overrideExpiry : String
  position : Nat
  pageName : String
  widgetName : String
deriving DecidableEq, Repr

/-- The request `updatePost` hands to `apiFetch`.  As in the source, the six
fields are appended to the path by `addQueryArgs`; the `body` field records
the request body handed to `apiFetch`, which the source never sets. -/
structure UpdatePostRequest where
  path : String
  queryArgs : UpdatePostQueryArgs
  method : String
  body : Option UpdatePostQueryArgs
deriving DecidableEq, Repr

/-- `updatePost({ruleType, overridePostID, overrideExpiry, position})`
(source lines 127-150): builds the POST request; the response is only
logged, so the model returns just the request. -/
def updatePost (cfg : Config) (ruleType overridePostID overrideExpiry : String)
    (position : Nat) : UpdatePostRequest :=
  { path := sophiEndpoint ++ "update-posts"
    queryArgs :=
      { ruleType := ruleType
        overridePostID := overridePostID
        overrideExpiry := overrideExpiry
        position := position
        pageName := cfg.pageName
        widgetName := cfg.widgetName }
    method := "POST"
    body := none }

/-- `{ b with attributes.postUpdated := false }`: the in-place clearing of
the "updated" flag (source line 156). -/
def clearUpdated (b : Block) : Block :=
  { b with attributes := { b.attributes with postUpdated := false } }

/-- `{ b with attributes.overrideRule := "" }`: the in-place clearing of the
override rule (source line 159). -/
def clearRule (b : Block) : Block :=
  { b with attributes := { b.attributes with overrideRule := "" } }

/-- The predicate `(item) => item.attributes.postUpdated === true` the merge
routine passes to `findIndex`. -/
def isFlagged (item : Block) : Bool := item.attributes.postUpdated == true

/-- Observable effects of one `updateInnerBlocks` call:
* `peekFetch`: the effect record of the nested `getPosts` call, when one was
  performed;
* `finalBlocks`: the state of the `innerBlocks` array after the in-place
  mutations and the splice (`none` when `innerBlocks` was `undefined`);
  entries are `Option Block` so that a spliced-in `undefined` is `none`;
* `replaceCall`: the payload of the merge's own `replaceInnerBlocks` call;
* `writeCall`: the `update-posts` request issued via `updatePost`. -/
structure MergeResult where
  peekFetch : Option GetPostsResult
  finalBlocks : Option (List (Option Block))
  replaceCall : Option (List (Option Block))
  writeCall : Option UpdatePostRequest
deriving DecidableEq, Repr

/-- `updateInnerBlocks()` (source lines 152-179), with the response the
nested `getPosts` call would receive supplied as `fetchResponse`.

* `innerBlocks` undefined: nothing happens.
* No item with `postUpdated === true`: nothing happens.
* First flagged item found at `index`: its flag is cleared in place.  If its
  `overrideRule` is not `'in'` nothing further happens.  Otherwise the rule
  is cleared, a peek fetch is made with the item's `overridePostID`, the
  first fetched element (JavaScript `undefined` when the fetch produced an
  empty array, hence `head?`) is spliced in at `index + 1`, the spliced
  array is pushed through `replaceInnerBlocks`, and the change is reported
  through `updatePost` with rule `'in'` and position `index + 1`.
* When the nested `getPosts` returns `undefined` (empty page or widget name,
  or an empty `overridePostID` putting it in replace mode), the source would
  throw a `TypeError` on `newInnerBlocks[0]`; modelled by `Except.error`. -/
def updateInnerBlocks (cfg : Config) (innerBlocks : Option (List Block))
    (fetchResponse : List ResponseItem) : Except String MergeResult :=
  match innerBlocks with
  | none =>
    .ok { peekFetch := none, finalBlocks := none, replaceCall := none, writeCall := none }
  | some blocks =>
    match blocks.findIdx? isFlagged with
    | none =>
      .ok { peekFetch := none
            finalBlocks := some (blocks.map some)
            replaceCall := none
            writeCall := none }
    | some index =>
      match blocks[index]? with
      | none =>
        -- unreachable: `findIdx?` only returns indices inside the list
        .ok { peekFetch := none
              finalBlocks := some (blocks.map some)
              replaceCall := none
              writeCall := none }
      | some b =>
        if b.attributes.overrideRule = "in" then
          let b1 := clearRule (clearUpdated b)
          let blocks1 := blocks.set index b1
          let overridePostID := b1.attributes.overridePostID
          let overrideExpiry := b1.attributes.overrideExpiry
          let g := getPosts cfg overridePostID fetchResponse
          match g.returned with
          | none => .error "TypeError: newInnerBlocks is undefined"
          | some newInnerBlocks =>
            let spliced := (blocks1.map some).insertIdx (index + 1) newInnerBlocks.head?
            .ok { peekFetch := some g
                  finalBlocks := some spliced
                  replaceCall := some spliced
                  writeCall := some (updatePost cfg "in" overridePostID overrideExpiry (index + 1)) }
        else
          .ok { peekFetch := none
                finalBlocks := some ((blocks.set index (clearUpdated b)).map some)
                replaceCall := none
                writeCall := none }

/-- Project the `update-posts` request out of a merge outcome. -/
def mergeWriteCall (e : Except String MergeResult) : Option UpdatePostRequest :=
  match e with
  | .ok m => m.writeCall
  | .error _ => none

/-! Concrete fixtures used to instantiate the theorems. -/

/-- A configuration with both identifiers set and all display toggles on. -/
def cfgA : Config :=
  { pageName := "news", widgetName := "trending"
    displayPostExcept := true, displayAuthor := true
    displayPostDate := true, displayFeaturedImage := true
    addLinkToFeaturedImage := true }

/-- A configuration with both identifiers set and all display toggles off. -/
def cfgOff : Config :=
  { pageName := "news", widgetName := "trending"
    displayPostExcept := false, displayAuthor := false
    displayPostDate := false, displayFeaturedImage := false
    addLinkToFeaturedImage := false }

/-- A configuration whose page name is empty. -/
def cfgNoPage : Config :=
  { pageName := "", widgetName := "trending"
    displayPostExcept := false, displayAuthor := false
    displayPostDate := false, displayFeaturedImage := false
    addLinkToFeaturedImage := false }

/-- A sample record of the `get-posts` response. -/
def itemA : ResponseItem :=
  { postLink := "https://example.com/a", post_title := "A"
    post_excerpt := "excerpt-a", featuredImage := "image-a"
    postAuthor := "author-a", postDate := "2021-01-01", postDateC := "c1" }

/-- A child block flagged `postUpdated` whose override rule is `'in'`. -/
def blockFlaggedIn : Block :=
  { name := "sophi/page-list-item"
    attributes :=
      { postUpdated := true, postLink := "https://example.com/0", postTitle := "Zero"
        postExcept := "", featuredImage := "", linkToFeaturedImage := false
        postAuthor := "", postDate := "", postDateC := ""
        overrideRule := "in", overridePostID := "42", overrideExpiry := "2" } }

/-- A child block that is not flagged. -/
def blockPlain : Block :=
  { name := "sophi/page-list-item"
    attributes :=
      { postUpdated := false, postLink := "https://example.com/1", postTitle := "One"
        postExcept := "", featuredImage := "", linkToFeaturedImage := false
        postAuthor := "", postDate := "", postDateC := ""
        overrideRule := "", overridePostID := "", overrideExpiry := "" } }

/-- A child block flagged `postUpdated` whose override rule is not `'in'`. -/
def blockFlaggedKeep : Block :=
  { name := "sophi/page-list-item"
    attributes :=
      { postUpdated := true, postLink := "https://example.com/2", postTitle := "Two"
        postExcept := "", featuredImage := "", linkToFeaturedImage := false
        postAuthor := "", postDate := "", postDateC := ""
        overrideRule := "keep", overridePostID := "7", overrideExpiry := "3" } }

end SophiSiteAutomation

deriving instance DecidableEq for Except

namespace SophiSiteAutomation

/-- Computation of `getPosts` when both identifiers are set and an override
post ID is supplied (peek mode); shared by several claims. -/
lemma getPosts_names_ok (cfg : Config) (oid : String) (resp : List ResponseItem)
    (hp : cfg.pageName ≠ "") (hw : cfg.widgetName ≠ "") (hoid : oid ≠ "") :
    getPosts cfg oid resp =
      { request := some
          { path := sophiEndpoint ++ "get-posts"
            queryArgs :=
              { overridePostID := oid
                pageName := cfg.pageName
                widgetName := cfg.widgetName
                displayFeaturedImage := cfg.displayFeaturedImage
                displayAuthor := cfg.displayAuthor
                displayPostDate := cfg.displayPostDate
                displayPostExcept := cfg.displayPostExcept }
            method := "GET" }
        alerted := resp.length == 0
        replaceCall := none
        returned := some (if resp.length ≠ 0 then resp.map (mkItemBlock cfg) else []) } := by
  simp [getPosts, hp, hw, hoid]

/-- Computation of the merge's insertion branch, shared by several claims. -/
lemma updateInnerBlocks_in_eq (cfg : Config) (blocks : List Block) (i : Nat) (b : Block)
    (resp : List ResponseItem)
    (hp : cfg.pageName ≠ "") (hw : cfg.widgetName ≠ "")
    (hfind : blocks.findIdx? isFlagged = some i)
    (hget : blocks[i]? = some b)
    (hrule : b.attributes.overrideRule = "in")
    (hoid : b.attributes.overridePostID ≠ "") :
    updateInnerBlocks cfg (some blocks) resp =
      .ok { peekFetch := some (getPosts cfg b.attributes.overridePostID resp)
            finalBlocks := some
              (((blocks.set i (clearRule (clearUpdated b))).map some).insertIdx (i + 1)
                (resp.head?.map (mkItemBlock cfg)))
            replaceCall := some
              (((blocks.set i (clearRule (clearUpdated b))).map some).insertIdx (i + 1)
                (resp.head?.map (mkItemBlock cfg)))
            writeCall := some (updatePost cfg "in" b.attributes.overridePostID
              b.attributes.overrideExpiry (i + 1)) } := by
  cases resp with
  | nil =>
    simp [updateInnerBlocks, hfind, hget, hrule, clearRule, clearUpdated, getPosts, hp, hw, hoid]
  | cons r rest =>
    simp [updateInnerBlocks, hfind, hget, hrule, clearRule, clearUpdated, getPosts, hp, hw, hoid]

end SophiSiteAutomation
namespace SophiSiteAutomation

/-- C9: when `pageName` or `widgetName` is empty, `getPosts` returns
immediately: no request is issued, no alert fires, the child list is not
replaced, and nothing (JavaScript `undefined`) is returned even in peek
mode. -/
theorem getPosts_empty_identifiers_noop (cfg : Config) (oid : String)
    (resp : List ResponseItem) (h : cfg.pageName = "" ∨ cfg.widgetName = "") :
    getPosts cfg oid resp =
      { request := none, alerted := false, replaceCall := none, returned := none } := by
  rcases h with h | h <;> simp [getPosts, h]

theorem getPosts_empty_identifiers_noop_witness :
    (cfgNoPage.pageName = "" ∨ cfgNoPage.widgetName = "") ∧
    getPosts cfgNoPage "42" [itemA] =
      { request := none, alerted := false, replaceCall := none, returned := none } :=
  ⟨Or.inl (by decide),
   getPosts_empty_identifiers_noop cfgNoPage "42" [itemA] (Or.inl (by decide))⟩

/-- C5: when no child item is flagged `postUpdated` (the `findIndex` call
finds nothing), the merge routine leaves the list and every item unchanged
and makes no fetch, no replacement call and no write call. -/
theorem merge_noop_when_no_item_flagged (cfg : Config) (blocks : List Block)
    (resp : List ResponseItem) (hfind : blocks.findIdx? isFlagged = none) :
    updateInnerBlocks cfg (some blocks) resp =
      .ok { peekFetch := none, finalBlocks := some (blocks.map some),
            replaceCall := none, writeCall := none } := by
  simp [updateInnerBlocks, hfind]

theorem merge_noop_when_no_item_flagged_witness :
    ([blockPlain].findIdx? isFlagged = none) ∧
    updateInnerBlocks cfgA (some [blockPlain]) [itemA] =
      .ok { peekFetch := none, finalBlocks := some ([blockPlain].map some),
            replaceCall := none, writeCall := none } :=
  ⟨by decide, merge_noop_when_no_item_flagged cfgA [blockPlain] [itemA] (by decide)⟩

/-- C6 counterexample: a peek-mode call (non-empty override post ID) with an
empty page name returns nothing at all (JavaScript `undefined`), not the
constructed item array, so the claim fails as universally stated. -/
theorem getPosts_peek_empty_page_cex :
    (getPosts cfgNoPage "42" [itemA]).returned = none ∧
    (getPosts cfgNoPage "42" [itemA]).request = none := by
  decide

/-- C6 (amended): for every peek-mode call (non-empty override post ID) in
which `pageName` and `widgetName` are both non-empty, `getPosts` returns the
constructed item array and does not call `replaceInnerBlocks`. -/
theorem getPosts_peek_returns_without_replacing (cfg : Config) (oid : String)
    (resp : List ResponseItem) (hp : cfg.pageName ≠ "") (hw : cfg.widgetName ≠ "")
    (hoid : oid ≠ "") :
    (getPosts cfg oid resp).replaceCall = none ∧
    (getPosts cfg oid resp).returned =
      some (if resp.length ≠ 0 then resp.map (mkItemBlock cfg) else []) := by
  rw [getPosts_names_ok cfg oid resp hp hw hoid]
  exact ⟨rfl, rfl⟩

theorem getPosts_peek_returns_without_replacing_witness :
    cfgA.pageName ≠ "" ∧ cfgA.widgetName ≠ "" ∧ ("42" : String) ≠ "" ∧
    (getPosts cfgA "42" [itemA]).replaceCall = none :=
  ⟨by decide, by decide, by decide,
   (getPosts_peek_returns_without_replacing cfgA "42" [itemA]
      (by decide) (by decide) (by decide)).1⟩

/-- C3 counterexample: on an empty response in replace mode the alert fires
but a child-replacement call still occurs, carrying the empty list, so the
claim that no replacement call occurs fails. -/
theorem getPosts_empty_response_still_replaces_cex :
    (getPosts cfgA "" []).alerted = true ∧
    (getPosts cfgA "" []).replaceCall = some [] := by
  decide

/-- C3 (amended): on an empty response the "not found" alert fires and no
child item is constructed; in peek mode no replacement call occurs, but in
replace mode `replaceInnerBlocks` is still called with the empty list. -/
theorem getPosts_empty_response_behavior (cfg : Config) (oid : String)
    (hp : cfg.pageName ≠ "") (hw : cfg.widgetName ≠ "") :
    (getPosts cfg oid []).alerted = true ∧
    (getPosts cfg "" []).replaceCall = some [] ∧
    (oid ≠ "" → (getPosts cfg oid []).replaceCall = none ∧
      (getPosts cfg oid []).returned = some []) := by
  refine ⟨?_, ?_, fun hoid => ?_⟩
  · by_cases hoid : oid = "" <;> simp [getPosts, hp, hw, hoid]
  · simp [getPosts, hp, hw]
  · rw [getPosts_names_ok cfg oid [] hp hw hoid]
    exact ⟨rfl, rfl⟩

theorem getPosts_empty_response_behavior_witness :
    cfgA.pageName ≠ "" ∧ cfgA.widgetName ≠ "" ∧
    (getPosts cfgA "42" []).alerted = true :=
  ⟨by decide, by decide,
   (getPosts_empty_response_behavior cfgA "42" (by decide) (by decide)).1⟩

/-- C2: on a non-empty response, `getPosts` constructs exactly one child
item per response record (the count equals the response length), each built
from the record through `mkItemBlock`, which maps the link, title, excerpt,
author, date and featured-image fields. -/
theorem getPosts_maps_each_response_item (cfg : Config) (resp : List ResponseItem)
    (hp : cfg.pageName ≠ "") (hw : cfg.widgetName ≠ "") (hresp : resp ≠ []) :
    (getPosts cfg "" resp).replaceCall = some (resp.map (mkItemBlock cfg)) ∧
    (∀ oid : String, oid ≠ "" →
      (getPosts cfg oid resp).returned = some (resp.map (mkItemBlock cfg))) ∧
    (resp.map (mkItemBlock cfg)).length = resp.length := by
  have h0 : resp.length ≠ 0 := by simpa using hresp
  refine ⟨?_, fun oid hoid => ?_, ?_⟩
  · simp [getPosts, hp, hw, h0]
  · rw [getPosts_names_ok cfg oid resp hp hw hoid]
    simp [h0]
  · simp

theorem getPosts_maps_each_response_item_witness :
    cfgA.pageName ≠ "" ∧ cfgA.widgetName ≠ "" ∧ ([itemA] : List ResponseItem) ≠ [] ∧
    (getPosts cfgA "" [itemA]).replaceCall = some ([itemA].map (mkItemBlock cfgA)) :=
  ⟨by decide, by decide, by decide,
   (getPosts_maps_each_response_item cfgA [itemA] (by decide) (by decide) (by decide)).1⟩

/-- C4: each display field of a constructed child item is the empty string
whenever its configuration toggle is off, and carries the response record's
value when the toggle is on (for the featured image, additionally only when
the record's image is non-empty, the truthiness test in the source). -/
theorem mkPageListItemAttrs_respects_toggles (cfg : Config) (item : ResponseItem) :
    (cfg.displayPostExcept = false → (mkPageListItemAttrs cfg item).postExcept = "") ∧
    (cfg.displayAuthor = false → (mkPageListItemAttrs cfg item).postAuthor = "") ∧
    (cfg.displayPostDate = false → (mkPageListItemAttrs cfg item).postDate = "" ∧
      (mkPageListItemAttrs cfg item).postDateC = "") ∧
    (cfg.displayFeaturedImage = false → (mkPageListItemAttrs cfg item).featuredImage = "") ∧
    (cfg.displayPostExcept = true →
      (mkPageListItemAttrs cfg item).postExcept = item.post_excerpt) ∧
    (cfg.displayAuthor = true → (mkPageListItemAttrs cfg item).postAuthor = item.postAuthor) ∧
    (cfg.displayPostDate = true → (mkPageListItemAttrs cfg item).postDate = item.postDate ∧
      (mkPageListItemAttrs cfg item).postDateC = item.postDateC) ∧
    (cfg.displayFeaturedImage = true → item.featuredImage ≠ "" →
      (mkPageListItemAttrs cfg item).featuredImage = item.featuredImage) := by
  refine ⟨fun h => ?_, fun h => ?_, fun h => ?_, fun h => ?_, fun h => ?_, fun h => ?_,
    fun h => ?_, fun h h2 => ?_⟩ <;> simp [mkPageListItemAttrs, *]

theorem mkPageListItemAttrs_respects_toggles_witness :
    cfgOff.displayPostExcept = false ∧ (mkPageListItemAttrs cfgOff itemA).postExcept = "" :=
  ⟨by decide, (mkPageListItemAttrs_respects_toggles cfgOff itemA).1 (by decide)⟩

end SophiSiteAutomation
namespace SophiSiteAutomation

/-- C1: when the first flagged child item's override rule is `'in'`, the
merge clears that item's rule (and flag), performs the peek fetch with the
item's `overridePostID`, splices the first fetched item in immediately
after the flagged item at `index + 1`, replaces the full child list with
the spliced list, and the spliced list is exactly one item longer. -/
theorem merge_insertion_inserts_fetched_item (cfg : Config) (blocks : List Block)
    (i : Nat) (b : Block) (r0 : ResponseItem) (rest : List ResponseItem)
    (hp : cfg.pageName ≠ "") (hw : cfg.widgetName ≠ "")
    (hfind : blocks.findIdx? isFlagged = some i)
    (hget : blocks[i]? = some b)
    (hrule : b.attributes.overrideRule = "in")
    (hoid : b.attributes.overridePostID ≠ "") :
    updateInnerBlocks cfg (some blocks) (r0 :: rest) =
      .ok { peekFetch := some (getPosts cfg b.attributes.overridePostID (r0 :: rest))
            finalBlocks := some (((blocks.set i (clearRule (clearUpdated b))).map some).insertIdx
              (i + 1) (some (mkItemBlock cfg r0)))
            replaceCall := some (((blocks.set i (clearRule (clearUpdated b))).map some).insertIdx
              (i + 1) (some (mkItemBlock cfg r0)))
            writeCall := some (updatePost cfg "in" b.attributes.overridePostID
              b.attributes.overrideExpiry (i + 1)) } ∧
    (((blocks.set i (clearRule (clearUpdated b))).map some).insertIdx
      (i + 1) (some (mkItemBlock cfg r0))).length = blocks.length + 1 ∧
    (((blocks.set i (clearRule (clearUpdated b))).map some).insertIdx
      (i + 1) (some (mkItemBlock cfg r0)))[i + 1]? = some (some (mkItemBlock cfg r0)) ∧
    (((blocks.set i (clearRule (clearUpdated b))).map some).insertIdx
      (i + 1) (some (mkItemBlock cfg r0)))[i]? = some (some (clearRule (clearUpdated b))) ∧
    (clearRule (clearUpdated b)).attributes.overrideRule = "" := by
  have hib : i < blocks.length := by
    rcases List.getElem?_eq_some_iff.mp hget with ⟨h, _⟩
    exact h
  have hlenm : ((blocks.set i (clearRule (clearUpdated b))).map some).length = blocks.length := by
    simp
  have hb : i + 1 ≤ ((blocks.set i (clearRule (clearUpdated b))).map some).length := by
    rw [hlenm]
    omega
  refine ⟨?_, ?_, ?_, ?_, rfl⟩
  · exact updateInnerBlocks_in_eq cfg blocks i b (r0 :: rest) hp hw hfind hget hrule hoid
  · rw [List.length_insertIdx _ _ hb, hlenm]
  · have hlt : i + 1 < (((blocks.set i (clearRule (clearUpdated b))).map some).insertIdx
        (i + 1) (some (mkItemBlock cfg r0))).length := by
      rw [List.length_insertIdx _ _ hb, hlenm]
      omega
    rw [List.getElem?_eq_getElem hlt, List.getElem_insertIdx_self _ _ _ hb]
  · have hk : i < ((blocks.set i (clearRule (clearUpdated b))).map some).length := by
      rw [hlenm]
      exact hib
    have hlt2 : i < (((blocks.set i (clearRule (clearUpdated b))).map some).insertIdx
        (i + 1) (some (mkItemBlock cfg r0))).length := by
      rw [List.length_insertIdx _ _ hb]
      omega
    rw [List.getElem?_eq_getElem hlt2,
      List.getElem_insertIdx_of_lt _ _ _ _ (Nat.lt_succ_self i) hk]
    simp [hib]

theorem merge_insertion_inserts_fetched_item_witness :
    cfgA.pageName ≠ "" ∧ cfgA.widgetName ≠ "" ∧
    [blockFlaggedIn].findIdx? isFlagged = some 0 ∧
    [blockFlaggedIn][0]? = some blockFlaggedIn ∧
    blockFlaggedIn.attributes.overrideRule = "in" ∧
    blockFlaggedIn.attributes.overridePostID ≠ "" ∧
    ((([blockFlaggedIn].set 0 (clearRule (clearUpdated blockFlaggedIn))).map some).insertIdx
      (0 + 1) (some (mkItemBlock cfgA itemA))).length = [blockFlaggedIn].length + 1 :=
  ⟨by decide, by decide, by decide, by decide, by decide, by decide,
   (merge_insertion_inserts_fetched_item cfgA [blockFlaggedIn] 0 blockFlaggedIn itemA []
      (by decide) (by decide) (by decide) (by decide) (by decide) (by decide)).2.1⟩

/-- C7 counterexample: the write request of a successful insertion merge
carries no request body at all (`apiFetch` is given only a path and a
method in the source), so the claim that the six fields travel in the
request body fails. -/
theorem merge_write_request_has_no_body_cex :
    (mergeWriteCall (updateInnerBlocks cfgA (some [blockFlaggedIn]) [itemA])).map
      UpdatePostRequest.body = some none ∧
    (mergeWriteCall (updateInnerBlocks cfgA (some [blockFlaggedIn]) [itemA])).isSome = true := by
  decide

/-- C7 (amended): after a successful insertion merge the change is reported
to the `update-posts` endpoint by a POST request carrying exactly the
fields `ruleType`, `overridePostID`, `overrideExpiry`, `position`,
`pageName` and `widgetName` as URL query arguments appended to the path
(the request body is empty), where `ruleType` is `'in'` and `position` is
the insertion index (flagged index + 1); the response is only logged. -/
theorem merge_reports_write_request (cfg : Config) (blocks : List Block) (i : Nat)
    (b : Block) (resp : List ResponseItem)
    (hp : cfg.pageName ≠ "") (hw : cfg.widgetName ≠ "")
    (hfind : blocks.findIdx? isFlagged = some i)
    (hget : blocks[i]? = some b)
    (hrule : b.attributes.overrideRule = "in")
    (hoid : b.attributes.overridePostID ≠ "") :
    mergeWriteCall (updateInnerBlocks cfg (some blocks) resp) =
      some { path := sophiEndpoint ++ "update-posts"
             queryArgs :=
               { ruleType := "in"
                 overridePostID := b.attributes.overridePostID
                 overrideExpiry := b.attributes.overrideExpiry
                 position := i + 1
                 pageName := cfg.pageName
                 widgetName := cfg.widgetName }
             method := "POST"
             body := none } := by
  rw [updateInnerBlocks_in_eq cfg blocks i b resp hp hw hfind hget hrule hoid]
  rfl

theorem merge_reports_write_request_witness :
    cfgA.pageName ≠ "" ∧ cfgA.widgetName ≠ "" ∧
    [blockFlaggedIn].findIdx? isFlagged = some 0 ∧
    [blockFlaggedIn][0]? = some blockFlaggedIn ∧
    blockFlaggedIn.attributes.overrideRule = "in" ∧
    blockFlaggedIn.attributes.overridePostID ≠ "" ∧
    mergeWriteCall (updateInnerBlocks cfgA (some [blockFlaggedIn]) [itemA]) =
      some { path := sophiEndpoint ++ "update-posts"
             queryArgs :=
               { ruleType := "in"
                 overridePostID := blockFlaggedIn.attributes.overridePostID
                 overrideExpiry := blockFlaggedIn.attributes.overrideExpiry
                 position := 0 + 1
                 pageName := cfgA.pageName
                 widgetName := cfgA.widgetName }
             method := "POST"
             body := none } :=
  ⟨by decide, by decide, by decide, by decide, by decide, by decide,
   merge_reports_write_request cfgA [blockFlaggedIn] 0 blockFlaggedIn [itemA]
     (by decide) (by decide) (by decide) (by decide) (by decide) (by decide)⟩

/-- C8: the merge indexes element 0 of the peek-fetch result with no guard:
when the fetch yields zero items, the missing first element (JavaScript
`undefined`, modelled as `none`) is still spliced into the child list at
`index + 1`, the spliced list is still one entry longer, and the entry at
`index + 1` is the undefined value. -/
theorem merge_empty_fetch_splices_missing_element (cfg : Config) (blocks : List Block)
    (i : Nat) (b : Block)
    (hp : cfg.pageName ≠ "") (hw : cfg.widgetName ≠ "")
    (hfind : blocks.findIdx? isFlagged = some i)
    (hget : blocks[i]? = some b)
    (hrule : b.attributes.overrideRule = "in")
    (hoid : b.attributes.overridePostID ≠ "") :
    updateInnerBlocks cfg (some blocks) [] =
      .ok { peekFetch := some (getPosts cfg b.attributes.overridePostID [])
            finalBlocks := some (((blocks.set i (clearRule (clearUpdated b))).map some).insertIdx
              (i + 1) none)
            replaceCall := some (((blocks.set i (clearRule (clearUpdated b))).map some).insertIdx
              (i + 1) none)
            writeCall := some (updatePost cfg "in" b.attributes.overridePostID
              b.attributes.overrideExpiry (i + 1)) } ∧
    (getPosts cfg b.attributes.overridePostID []).returned = some [] ∧
    (((blocks.set i (clearRule (clearUpdated b))).map some).insertIdx
      (i + 1) none).length = blocks.length + 1 ∧
    (((blocks.set i (clearRule (clearUpdated b))).map some).insertIdx
      (i + 1) none)[i + 1]? = some none := by
  have hib : i < blocks.length := by
    rcases List.getElem?_eq_some_iff.mp hget with ⟨h, _⟩
    exact h
  have hlenm : ((blocks.set i (clearRule (clearUpdated b))).map some).length = blocks.length := by
    simp
  have hb : i + 1 ≤ ((blocks.set i (clearRule (clearUpdated b))).map some).length := by
    rw [hlenm]
    omega
  refine ⟨?_, ?_, ?_, ?_⟩
  · exact updateInnerBlocks_in_eq cfg blocks i b [] hp hw hfind hget hrule hoid
  · rw [getPosts_names_ok cfg _ [] hp hw hoid]
    simp
  · rw [List.length_insertIdx _ _ hb, hlenm]
  · have hlt : i + 1 < (((blocks.set i (clearRule (clearUpdated b))).map some).insertIdx
        (i + 1) none).length := by
      rw [List.length_insertIdx _ _ hb, hlenm]
      omega
    rw [List.getElem?_eq_getElem hlt, List.getElem_insertIdx_self _ _ _ hb]

theorem merge_empty_fetch_splices_missing_element_witness :
    cfgA.pageName ≠ "" ∧ cfgA.widgetName ≠ "" ∧
    [blockFlaggedIn].findIdx? isFlagged = some 0 ∧
    [blockFlaggedIn][0]? = some blockFlaggedIn ∧
    blockFlaggedIn.attributes.overrideRule = "in" ∧
    blockFlaggedIn.attributes.overridePostID ≠ "" ∧
    ((([blockFlaggedIn].set 0 (clearRule (clearUpdated blockFlaggedIn))).map some).insertIdx
      (0 + 1) none)[0 + 1]? = some none :=
  ⟨by decide, by decide, by decide, by decide, by decide, by decide,
   (merge_empty_fetch_splices_missing_element cfgA [blockFlaggedIn] 0 blockFlaggedIn
      (by decide) (by decide) (by decide) (by decide) (by decide) (by decide)).2.2.2⟩

/-- C10: when the first flagged child item's override rule differs from
`'in'`, the merge clears only that item's `postUpdated` flag: no fetch, no
splice, no replacement call and no write call happen, every other attribute
of the item keeps its value, the list keeps its length, and every other
position of the list is untouched. -/
theorem merge_non_insertion_rule_clears_flag_only (cfg : Config) (blocks : List Block)
    (i : Nat) (b : Block) (resp : List ResponseItem)
    (hfind : blocks.findIdx? isFlagged = some i)
    (hget : blocks[i]? = some b)
    (hrule : b.attributes.overrideRule ≠ "in") :
    updateInnerBlocks cfg (some blocks) resp =
      .ok { peekFetch := none
            finalBlocks := some ((blocks.set i (clearUpdated b)).map some)
            replaceCall := none
            writeCall := none } ∧
    (clearUpdated b).attributes.postUpdated = false ∧
    (clearUpdated b).name = b.name ∧
    (clearUpdated b).attributes.postLink = b.attributes.postLink ∧
    (clearUpdated b).attributes.postTitle = b.attributes.postTitle ∧
    (clearUpdated b).attributes.postExcept = b.attributes.postExcept ∧
    (clearUpdated b).attributes.featuredImage = b.attributes.featuredImage ∧
    (clearUpdated b).attributes.linkToFeaturedImage = b.attributes.linkToFeaturedImage ∧
    (clearUpdated b).attributes.postAuthor = b.attributes.postAuthor ∧
    (clearUpdated b).attributes.postDate = b.attributes.postDate ∧
    (clearUpdated b).attributes.postDateC = b.attributes.postDateC ∧
    (clearUpdated b).attributes.overrideRule = b.attributes.overrideRule ∧
    (clearUpdated b).attributes.overridePostID = b.attributes.overridePostID ∧
    (clearUpdated b).attributes.overrideExpiry = b.attributes.overrideExpiry ∧
    (blocks.set i (clearUpdated b)).length = blocks.length ∧
    (∀ j : Nat, j ≠ i → (blocks.set i (clearUpdated b))[j]? = blocks[j]?) := by
  refine ⟨?_, rfl, rfl, rfl, rfl, rfl, rfl, rfl, rfl, rfl, rfl, rfl, rfl, rfl, ?_, ?_⟩
  · simp [updateInnerBlocks, hfind, hget, hrule]
  · simp
  · intro j hj
    exact List.getElem?_set_ne (Ne.symm hj)

theorem merge_non_insertion_rule_clears_flag_only_witness :
    [blockFlaggedKeep].findIdx? isFlagged = some 0 ∧
    [blockFlaggedKeep][0]? = some blockFlaggedKeep ∧
    blockFlaggedKeep.attributes.overrideRule ≠ "in" ∧
    updateInnerBlocks cfgA (some [blockFlaggedKeep]) [itemA] =
      .ok { peekFetch := none
            finalBlocks := some (([blockFlaggedKeep].set 0 (clearUpdated blockFlaggedKeep)).map some)
            replaceCall := none
            writeCall := none } :=
  ⟨by decide, by decide, by decide,
   (merge_non_insertion_rule_clears_flag_only cfgA [blockFlaggedKeep] 0 blockFlaggedKeep [itemA]
      (by decide) (by decide) (by decide)).1⟩

end SophiSiteAutomation
